import Mathlib

/-!
Verification of the donation-tracking API in `src/app.py` (AddBrain).

The embedding models the two in-memory record sets (`centers_db`,
`donations_db`) as association lists in insertion order, and the three
request handlers `process_donation`, `create_payment` and `execute_payment`
as pure state-passing functions.  Python floats are modelled by `PyFloat`:
a rational number or one of the special values `inf`, `-inf`, `nan`, with
IEEE comparison semantics (every comparison against `nan` is false);
rounding of finite values is not modelled, which does not affect any claim
here because aggregates are accumulated in exactly the order the ledger is
appended to.  The external PayPal gateway is an opaque collaborator: each
handler call takes the outcome of its gateway interaction as an input.
Timestamps and generated ids are modelled by naturals supplied to each
operation (`datetime.utcnow()` / `uuid.uuid4()` produce them externally).
-/

attribute [local semireducible] Rat.add

/-- A Python float value as used by `app.py`: a finite rational or one of
the special values produced by `float("inf")`, `float("-inf")`, `float("nan")`. -/
inductive PyFloat where
  | fin (q : ℚ)
  | inf
  | ninf
  | nan
  deriving DecidableEq

/-- IEEE `<` on Python floats: any comparison involving `nan` is false. -/
def PyFloat.lt : PyFloat → PyFloat → Bool
  | .nan, _ => false
  | _, .nan => false
  | .fin a, .fin b => decide (a < b)
  | .fin _, .inf => true
  | .fin _, .ninf => false
  | .inf, _ => false
  | .ninf, .ninf => false
  | .ninf, _ => true

/-- IEEE `≤` on Python floats: any comparison involving `nan` is false. -/
def PyFloat.le : PyFloat → PyFloat → Bool
  | .nan, _ => false
  | _, .nan => false
  | .fin a, .fin b => decide (a ≤ b)
  | .fin _, .inf => true
  | .fin _, .ninf => false
  | .inf, .inf => true
  | .inf, _ => false
  | .ninf, _ => true

/-- IEEE addition on Python floats (exact on finite values; the rounding of
finite sums is not modelled). -/
def PyFloat.add : PyFloat → PyFloat → PyFloat
  | .nan, _ => .nan
  | _, .nan => .nan
  | .inf, .ninf => .nan
  | .ninf, .inf => .nan
  | .inf, _ => .inf
  | _, .inf => .inf
  | .ninf, _ => .ninf
  | _, .ninf => .ninf
  | .fin a, .fin b => .fin (a + b)

/-- Digits of a numeral as a natural number, `none` when a character is not
a digit.  An empty list yields `some 0`; callers guard emptiness. -/
def natOfDigits (l : List Char) : Option Nat :=
  if l.all Char.isDigit then
    some (l.foldl (fun n c => 10 * n + (c.toNat - 48)) 0)
  else
    none

/-- Surrounding whitespace removed, as Python `float()` does to its string
argument. -/
def trimChars (l : List Char) : List Char :=
  ((l.dropWhile Char.isWhitespace).reverse.dropWhile Char.isWhitespace).reverse

/-- Split on the dot character, like Python `str.split(".")`: the result
always has one more part than the input has dots. -/
def splitOnDot : List Char → List (List Char)
  | [] => [[]]
  | c :: rest =>
      let parts := splitOnDot rest
      if c = '.' then [] :: parts
      else
        match parts with
        | [] => [[c]]
        | h :: t => (c :: h) :: t

/-- Models the Python builtin `float(str)` on the grammar exercised by this
development: optional surrounding whitespace and sign, then the special
words `inf` / `infinity` / `nan` (case-insensitively), or a decimal numeral
with an optional fractional part.  Exponent and underscore forms, which no
claim touches, are out of the modelled grammar. -/
def pyFloatOfString (s : String) : Option PyFloat :=
  let t := (trimChars s.data).map Char.toLower
  let neg := t.head? = some '-'
  let u := match t with
    | '-' :: rest => rest
    | '+' :: rest => rest
    | l => l
  if u = "inf".data ∨ u = "infinity".data then
    some (if neg then .ninf else .inf)
  else if u = "nan".data then
    some .nan
  else
    match splitOnDot u with
    | [w] =>
        if w = [] then none
        else (natOfDigits w).map fun n =>
          .fin (mkRat (if neg then -(n : Int) else (n : Int)) 1)
    | [w, f] =>
        if w = [] ∧ f = [] then none
        else
          match natOfDigits w, natOfDigits f with
          | some nw, some nf =>
              let den := 10 ^ f.length
              let num : Int := Int.ofNat (nw * den + nf)
              some (.fin (mkRat (if neg then -num else num) den))
          | _, _ => none
    | _ => none

/-- A fundraising center record, as stored in `centers_db` (app.py:47-57). -/
structure Center where
  id : String
  name : String
  city : String
  country : String
  funds_raised : PyFloat
  goal : PyFloat
  donors : Nat
  last_donation : Option Nat
  created_at : Nat
  currency : String
  deriving DecidableEq

/-- Donation status: direct-path donations are stored `pending`,
gateway-path donations `completed` (app.py:153, 338). -/
inductive DonationStatus where
  | pending
  | completed
  deriving DecidableEq

/-- A donation record, as stored in `donations_db` (app.py:147-156 and
330-341).  `gateway` holds the PayPal `(payment_id, payer_id)` pair for
gateway-path donations and is `none` for direct donations. -/
structure Donation where
  id : Nat
  center_id : String
  amount : PyFloat
  donor_name : String
  payment_method : String
  gateway : Option (String × String)
  status : DonationStatus
  created_at : Nat
  currency : String
  deriving DecidableEq

/-- The in-memory database of `app.py` (lines 32-33): both Python dicts are
association lists in insertion order; `nextId` models the external supply
of fresh `uuid.uuid4()` donation identifiers. -/
structure AppState where
  centers_db : List (String × Center)
  donations_db : List (Nat × Donation)
  nextId : Nat
  deriving DecidableEq

/-- Python `d[k]` lookup on an association list (first binding wins; keys
produced by `dict_set` are unique anyway). -/
def alist_get {α : Type} (l : List (String × α)) (k : String) : Option α :=
  match l with
  | [] => none
  | (k', v) :: rest => if k' = k then some v else alist_get rest k

/-- Python `d[k] = v` on an association list: replaces the value in place
when the key is present, appends otherwise (dict insertion-order update). -/
def dict_set {α : Type} (l : List (String × α)) (k : String) (v : α) :
    List (String × α) :=
  if (alist_get l k).isSome then
    l.map fun p => if p.1 = k then (k, v) else p
  else
    l ++ [(k, v)]

/-- The center id slug of app.py:46:
`f"{city.lower().replace(' ', '_')}_{country.lower()}"`. -/
def center_slug (country city : String) : String :=
  String.mk ((city.data.map Char.toLower).map fun c => if c = ' ' then '_' else c)
    ++ "_" ++ String.mk (country.data.map Char.toLower)

/-- The fresh center record built for one catalog entry (app.py:47-57). -/
def mkCenter (country city : String) (created_at : Nat) : Center :=
  { id := center_slug country city
    name := city ++ " Suicide Prevention Center"
    city := city
    country := country
    funds_raised := .fin 0
    goal := .fin 200000
    donors := 0
    last_donation := none
    created_at := created_at
    currency := "USD" }

/-- `init_centers_db` (app.py:36-59) over an arbitrary ordered catalog of
(country, cities) entries: one dict assignment per city, in order.  The
source performs plain `centers_db[center_id] = ...` with no duplicate
check, so a colliding id silently overwrites the earlier entry. -/
def init_centers_db (catalog : List (String × List String))
    (created_at : Nat) : List (String × Center) :=
  catalog.foldl
    (fun db entry =>
      entry.2.foldl
        (fun db city =>
          dict_set db (center_slug entry.1 city) (mkCenter entry.1 city created_at))
        db)
    []

/-- The hard-coded catalog `TARGET_CITIES` of app.py:37-40, in dict
insertion order. -/
def TARGET_CITIES : List (String × List String) :=
  [("Canada", ["Vancouver", "Toronto", "Montreal"]),
   ("USA", ["San Francisco", "Los Angeles", "New York"])]

/-- The process state right after startup: centers initialized from the
catalog, no donations, first fresh donation id 0. -/
def initState (catalog : List (String × List String)) (created_at : Nat) :
    AppState :=
  { centers_db := init_centers_db catalog created_at
    donations_db := []
    nextId := 0 }

/-- The response of `process_donation`, one constructor per return site
(app.py:118, 125, 132, 137, 168). -/
inductive PdResult where
  | invalidAmount
  | centerNotFound
  | belowMinimum
  | amountNotPositive
  | ok (donation_id : Nat)
  deriving DecidableEq

/-- The three center-aggregate assignments of app.py:162-164 (and 347-349):
`funds_raised += amount`, `donors += 1`, `last_donation = timestamp`. -/
def bump_center (amount : PyFloat) (timestamp : Nat) (c : Center) : Center :=
  { c with
    funds_raised := c.funds_raised.add amount
    donors := c.donors + 1
    last_donation := some timestamp }

/-- The shared append-and-aggregate block (app.py:158-164, duplicated at
343-349): store the donation, then bump the referenced center in place. -/
def record_and_update (s : AppState) (center_id : String) (d : Donation)
    (amount : PyFloat) (timestamp : Nat) : AppState :=
  { centers_db :=
      s.centers_db.map fun p =>
        if p.1 = center_id then (p.1, bump_center amount timestamp p.2) else p
    donations_db := s.donations_db ++ [(s.nextId, d)]
    nextId := s.nextId + 1 }

/-- The `/process_donation` handler (app.py:96-180) from the point where
the required fields are present.  `amountRaw` is the result of
`float(data["amount"])`: `none` when the conversion raised.  Note the
source parses the amount (line 116) before the center lookup (line 124). -/
def process_donation (s : AppState) (center_id : String)
    (amountRaw : Option PyFloat) (donor_name payment_method : String)
    (timestamp : Nat) : PdResult × AppState :=
  match amountRaw with
  | none => (.invalidAmount, s)
  | some amount =>
      match alist_get s.centers_db center_id with
      | none => (.centerNotFound, s)
      | some c =>
          if amount.lt (.fin 10) then (.belowMinimum, s)
          else if amount.le (.fin 0) then (.amountNotPositive, s)
          else
            let d : Donation :=
              { id := s.nextId
                center_id := center_id
                amount := amount
                donor_name := donor_name
                payment_method := payment_method
                gateway := none
                status := .pending
                created_at := timestamp
                currency := c.currency }
            (.ok s.nextId, record_and_update s center_id d amount timestamp)

/-- Outcome of the gateway interaction of `create_payment`
(app.py:256-284): `payment.create()` returning false, succeeding (carrying
the payment id and the approval link found in `payment.links`, if any), or
the SDK raising. -/
inductive GatewayCreate where
  | createFailed
  | created (payment_id : String) (approval_url : Option String)
  | raised
  deriving DecidableEq

/-- The response of `create_payment`, one constructor per return site
(app.py:205, 214, 221, 260, 267, 273, 281). -/
inductive CpResult where
  | invalidAmount
  | centerNotFound
  | belowMinimum
  | ok (payment_id approval_url : String)
  | noApprovalUrl
  | createFailed
  | internalError
  deriving DecidableEq

/-- The `/create_payment` handler (app.py:182-284) from the point where the
required fields are present.  It only reads `centers_db` and never touches
`donations_db`; every branch returns the state unchanged. -/
def create_payment (s : AppState) (center_id : String)
    (amountRaw : Option PyFloat) (g : GatewayCreate) : CpResult × AppState :=
  match amountRaw with
  | none => (.invalidAmount, s)
  | some amount =>
      match alist_get s.centers_db center_id with
      | none => (.centerNotFound, s)
      | some _ =>
          if amount.lt (.fin 10) then (.belowMinimum, s)
          else
            match g with
            | .raised => (.internalError, s)
            | .createFailed => (.createFailed, s)
            | .created _ none => (.noApprovalUrl, s)
            | .created pid (some url) => (.ok pid url, s)

/-- Outcome of the gateway interaction of `execute_payment`
(app.py:319-324): `Payment.find` raising `ResourceNotFound`, any other SDK
exception, `payment.execute` returning false, or success carrying
`float(payment.transactions[0].amount.total)` — the gateway-confirmed
captured amount. -/
inductive GatewayExec where
  | notFound
  | raised
  | execFailed
  | success (capturedAmount : PyFloat)
  deriving DecidableEq

/-- The response of `execute_payment`, one constructor per return site
(app.py:312, 353, 361, 369, 375). -/
inductive EpResult where
  | centerNotFound
  | paymentNotFound
  | execFailed
  | internalError
  | ok (donation_id : Nat)
  deriving DecidableEq

/-- The `/execute_payment` handler (app.py:286-378) from the point where
the required fields are present.  The center existence check (line 311)
precedes the gateway interaction; on gateway success the recorded amount is
the gateway-reported captured amount, with no further validation. -/
def execute_payment (s : AppState) (payment_id payer_id center_id donor_name : String)
    (g : GatewayExec) (timestamp : Nat) : EpResult × AppState :=
  match alist_get s.centers_db center_id with
  | none => (.centerNotFound, s)
  | some c =>
      match g with
      | .notFound => (.paymentNotFound, s)
      | .raised => (.internalError, s)
      | .execFailed => (.execFailed, s)
      | .success amount =>
          let d : Donation :=
            { id := s.nextId
              center_id := center_id
              amount := amount
              donor_name := donor_name
              payment_method := "paypal"
              gateway := some (payment_id, payer_id)
              status := .completed
              created_at := timestamp
              currency := c.currency }
          (.ok s.nextId, record_and_update s center_id d amount timestamp)

/-- One mutating API request: the three POST handlers with their inputs and
(for the gateway handlers) the gateway outcome. -/
inductive Op where
  | direct (center_id : String) (amountRaw : Option PyFloat)
      (donor_name payment_method : String) (timestamp : Nat)
  | createPay (center_id : String) (amountRaw : Option PyFloat) (g : GatewayCreate)
  | execPay (payment_id payer_id center_id donor_name : String)
      (g : GatewayExec) (timestamp : Nat)
  deriving DecidableEq

/-- State effect of one request (the response is discarded). -/
def step (s : AppState) : Op → AppState
  | .direct cid a dn pm t => (process_donation s cid a dn pm t).2
  | .createPay cid a g => (create_payment s cid a g).2
  | .execPay pid yid cid dn g t => (execute_payment s pid yid cid dn g t).2

/-- State after a sequence of requests. -/
def run (s : AppState) (ops : List Op) : AppState :=
  ops.foldl step s

/-- The donation records of a ledger that reference a given center. -/
def donationsFor (dl : List (Nat × Donation)) (cid : String) : List Donation :=
  (dl.map Prod.snd).filter fun d => d.center_id = cid

/-- The donation records currently in the ledger that reference a center. -/
def centerDonations (s : AppState) (cid : String) : List Donation :=
  donationsFor s.donations_db cid

/-- Float sum of the amounts of a list of donations, accumulated in ledger
order starting from `0` — exactly how `funds_raised` is accumulated. -/
def sumAmounts (l : List Donation) : PyFloat :=
  l.foldl (fun acc d => acc.add d.amount) (.fin 0)

/-- The center ids a catalog generates, one per entry, in order. -/
def catalogSlugs (catalog : List (String × List String)) : List String :=
  catalog.flatMap fun entry => entry.2.map fun city => center_slug entry.1 city

/-- The key bookkeeping invariant: every center's aggregates agree with the
ledger — its id is its registry key, `funds_raised` is the (float) sum of
the amounts of its donation records, `donors` their number. -/
def ledger_center_invariant (s : AppState) : Prop :=
  ∀ cid c, alist_get s.centers_db cid = some c →
    c.id = cid ∧
    c.funds_raised = sumAmounts (centerDonations s cid) ∧
    c.donors = (centerDonations s cid).length

/-- Every direct-path (non-gateway) donation in the ledger passed the
`amount < 10` rejection, i.e. that comparison is false for it. -/
def direct_min_prop (s : AppState) : Prop :=
  ∀ p ∈ s.donations_db, p.2.gateway = none →
    p.2.amount.lt (PyFloat.fin 10) = false

/-- A one-entry demonstration catalog used by concrete witnesses. -/
def demoCatalog : List (String × List String) := [("ca", ["x"])]

/-- A concrete request sequence for witnesses: one direct donation of 50
currency units at time 7. -/
def demoOps : List Op := [Op.direct "x_ca" (some (PyFloat.fin 50)) "dana" "card" 7]

/-- The state reached by `demoOps` from the demo catalog. -/
def demoState : AppState := run (initState demoCatalog 0) demoOps

/-- The single center of `demoState`, after the demo donation. -/
def demoCenter : Center :=
  { id := "x_ca"
    name := "x Suicide Prevention Center"
    city := "x"
    country := "ca"
    funds_raised := PyFloat.fin 50
    goal := PyFloat.fin 200000
    donors := 1
    last_donation := some 7
    created_at := 0
    currency := "USD" }

/-! ## Association-list and fold lemmas -/

/-- Unfolding `alist_get` one cons step. -/
theorem alist_get_cons {α : Type} (k' : String) (v : α)
    (rest : List (String × α)) (q : String) :
    alist_get ((k', v) :: rest) q = if k' = q then some v else alist_get rest q :=
  rfl

/-- Lookup in a value-wise update at key `k`: the updated map agrees with
the original everywhere except `k`, where the value is transformed. -/
theorem alist_get_map_update {α : Type} (l : List (String × α)) (k : String)
    (g : α → α) (q : String) :
    alist_get (l.map fun p => if p.1 = k then (p.1, g p.2) else p) q =
      if q = k then (alist_get l q).map g else alist_get l q := by
  induction l with
  | nil =>
      by_cases hq : q = k
      · rw [if_pos hq]; rfl
      · rw [if_neg hq]; rfl
  | cons p rest ih =>
      obtain ⟨k', v⟩ := p
      rw [List.map_cons]
      dsimp only
      by_cases hk : k' = k
      · rw [if_pos hk, alist_get_cons]
        by_cases hq' : k' = q
        · rw [if_pos hq', if_pos (hq'.symm.trans hk), alist_get_cons, if_pos hq']
          rfl
        · rw [if_neg hq', ih, alist_get_cons, if_neg hq']
      · rw [if_neg hk, alist_get_cons]
        by_cases hq' : k' = q
        · rw [if_pos hq', if_neg (fun h : q = k => hk (hq'.trans h)), alist_get_cons,
            if_pos hq']
        · rw [if_neg hq', ih, alist_get_cons, if_neg hq']

/-- A successful lookup names an element of the list. -/
theorem alist_get_mem {α : Type} (l : List (String × α)) (k : String) (v : α)
    (h : alist_get l k = some v) : (k, v) ∈ l := by
  induction l with
  | nil => simp [alist_get] at h
  | cons p rest ih =>
      obtain ⟨k', v'⟩ := p
      by_cases hk : k' = k
      · subst hk
        simp [alist_get] at h
        subst h
        exact List.mem_cons_self _ _
      · simp [alist_get, hk] at h
        exact List.mem_cons_of_mem _ (ih h)

/-- Lookup misses exactly when the key is absent. -/
theorem alist_get_eq_none {α : Type} (l : List (String × α)) (k : String) :
    alist_get l k = none ↔ k ∉ l.map Prod.fst := by
  induction l with
  | nil => simp [alist_get]
  | cons p rest ih =>
      obtain ⟨k', v'⟩ := p
      rw [alist_get_cons, List.map_cons]
      by_cases hk : k' = k
      · rw [if_pos hk]
        simp [hk]
      · rw [if_neg hk]
        simp [ih, show ¬ k = k' from fun h => hk h.symm]

/-- Assigning a fresh key appends the binding. -/
theorem dict_set_fresh {α : Type} (l : List (String × α)) (k : String) (v : α)
    (h : k ∉ l.map Prod.fst) : dict_set l k v = l ++ [(k, v)] := by
  unfold dict_set
  rw [(alist_get_eq_none l k).mpr h]
  rfl

/-- Dict assignment preserves a pointwise property of the bindings when the
assigned binding satisfies it. -/
theorem dict_set_forall {α : Type} (P : String → α → Prop)
    (l : List (String × α)) (k : String) (v : α)
    (hl : ∀ p ∈ l, P p.1 p.2) (hv : P k v) :
    ∀ p ∈ dict_set l k v, P p.1 p.2 := by
  intro p hp
  unfold dict_set at hp
  split at hp
  · obtain ⟨q, hq, rfl⟩ := List.mem_map.mp hp
    by_cases h : q.1 = k
    · simpa [h] using hv
    · simpa [h] using hl q hq
  · rcases List.mem_append.mp hp with h | h
    · exact hl p h
    · simp at h
      subst h
      exact hv

/-- A property of fold states survives a fold whose step preserves it. -/
theorem foldl_preserves {β γ : Type} (Q : β → Prop) (f : β → γ → β)
    (hf : ∀ b x, Q b → Q (f b x)) :
    ∀ (l : List γ) (b : β), Q b → Q (l.foldl f b) := by
  intro l
  induction l with
  | nil => intro b h; exact h
  | cons x rest ih => intro b h; exact ih _ (hf b x h)

/-! ## Ledger bookkeeping lemmas -/

/-- Appending one donation record extends the per-center view by that
record exactly when it references the center. -/
theorem donationsFor_append (dl : List (Nat × Donation)) (n : Nat)
    (d : Donation) (cid : String) :
    donationsFor (dl ++ [(n, d)]) cid =
      donationsFor dl cid ++ if d.center_id = cid then [d] else [] := by
  unfold donationsFor
  rw [List.map_append, List.filter_append]
  congr 1
  by_cases h : d.center_id = cid
  · rw [if_pos h]
    simp [h]
  · rw [if_neg h]
    simp [h]

/-- Summing after appending one record adds its amount last. -/
theorem sumAmounts_append (l : List Donation) (d : Donation) :
    sumAmounts (l ++ [d]) = (sumAmounts l).add d.amount := by
  unfold sumAmounts
  rw [List.foldl_append]
  rfl

/-- `sumAmounts` over an empty list. -/
theorem sumAmounts_nil : sumAmounts [] = PyFloat.fin 0 := rfl

/-! ## Initialization lemmas -/

/-- Every binding produced by `init_centers_db` is a fresh center stored
under its own id: zero funds, zero donors, id equal to its key. -/
theorem init_centers_values (catalog : List (String × List String)) (t : Nat) :
    ∀ p ∈ init_centers_db catalog t,
      p.2.id = p.1 ∧ p.2.funds_raised = PyFloat.fin 0 ∧ p.2.donors = 0 := by
  unfold init_centers_db
  refine foldl_preserves
    (fun db : List (String × Center) =>
      ∀ p ∈ db, p.2.id = p.1 ∧ p.2.funds_raised = PyFloat.fin 0 ∧ p.2.donors = 0)
    _ ?_ catalog [] (by intro p hp; simp at hp)
  intro db entry hdb
  refine foldl_preserves
    (fun db : List (String × Center) =>
      ∀ p ∈ db, p.2.id = p.1 ∧ p.2.funds_raised = PyFloat.fin 0 ∧ p.2.donors = 0)
    _ ?_ entry.2 db hdb
  intro db city hdb
  refine dict_set_forall
    (fun k (c : Center) => c.id = k ∧ c.funds_raised = PyFloat.fin 0 ∧ c.donors = 0)
    db _ _ hdb ?_
  exact ⟨rfl, rfl, rfl⟩

/-! ## Frame lemma for the payment-creation handler -/

/-- `create_payment` returns the state unchanged on every path. -/
theorem create_payment_snd (s : AppState) (cid : String) (a : Option PyFloat)
    (g : GatewayCreate) : (create_payment s cid a g).2 = s := by
  unfold create_payment
  rcases a with _ | x
  · rfl
  · rcases h : alist_get s.centers_db cid with _ | c
    · rfl
    · by_cases hx : x.lt (PyFloat.fin 10) = true
      · simp [hx]
      · rcases g with _ | ⟨pid, url⟩ | _
        · simp [hx]
        · rcases url with _ | u <;> simp [hx]
        · simp [hx]

/-! ## Preservation of the bookkeeping invariant -/

/-- The shared append-and-aggregate block preserves the bookkeeping
invariant when the appended record references the bumped center with the
bumped amount. -/
theorem invariant_record (s : AppState) (cid : String) (d : Donation)
    (amount : PyFloat) (t : Nat) (hI : ledger_center_invariant s)
    (hdc : d.center_id = cid) (hda : d.amount = amount) :
    ledger_center_invariant (record_and_update s cid d amount t) := by
  intro q c hq
  have hdon :
      centerDonations (record_and_update s cid d amount t) q =
        centerDonations s q ++ if d.center_id = q then [d] else [] := by
    unfold centerDonations record_and_update
    exact donationsFor_append s.donations_db s.nextId d q
  have hcent :
      alist_get (record_and_update s cid d amount t).centers_db q =
        if q = cid then (alist_get s.centers_db q).map (bump_center amount t)
        else alist_get s.centers_db q := by
    unfold record_and_update
    exact alist_get_map_update s.centers_db cid (bump_center amount t) q
  rw [hcent] at hq
  by_cases hqc : q = cid
  · subst hqc
    rw [if_pos rfl] at hq
    rcases h0 : alist_get s.centers_db q with _ | c0
    · rw [h0] at hq
      exact absurd hq (by simp)
    · rw [h0] at hq
      have hc : c = bump_center amount t c0 := by
        simpa using hq.symm
      obtain ⟨hid, hf, hd⟩ := hI q c0 h0
      subst hc
      rw [hdon, hdc, if_pos rfl]
      refine ⟨?_, ?_, ?_⟩
      · show c0.id = q
        exact hid
      · show c0.funds_raised.add amount = sumAmounts (centerDonations s q ++ [d])
        rw [sumAmounts_append, hda, hf]
      · show c0.donors + 1 = (centerDonations s q ++ [d]).length
        rw [List.length_append, hd]
        rfl
  · rw [if_neg hqc] at hq
    obtain ⟨hid, hf, hd⟩ := hI q c hq
    rw [hdon, hdc, if_neg (fun h : cid = q => hqc h.symm)]
    rw [List.append_nil]
    exact ⟨hid, hf, hd⟩

/-- The bookkeeping invariant holds right after initialization. -/
theorem invariant_initState (catalog : List (String × List String)) (t : Nat) :
    ledger_center_invariant (initState catalog t) := by
  intro cid c h
  have hmem := init_centers_values catalog t (cid, c) (alist_get_mem _ _ _ h)
  refine ⟨hmem.1, ?_, ?_⟩
  · rw [hmem.2.1]; rfl
  · rw [hmem.2.2]; rfl

/-- Every request handler preserves the bookkeeping invariant. -/
theorem invariant_step (s : AppState) (op : Op) (hI : ledger_center_invariant s) :
    ledger_center_invariant (step s op) := by
  cases op with
  | direct cid a dn pm t =>
      show ledger_center_invariant (process_donation s cid a dn pm t).2
      unfold process_donation
      rcases a with _ | x
      · exact hI
      · rcases h : alist_get s.centers_db cid with _ | c
        · simp only [h]
          exact hI
        · simp only [h]
          by_cases hlt : x.lt (PyFloat.fin 10) = true
          · rw [if_pos hlt]
            exact hI
          · rw [if_neg hlt]
            by_cases hle : x.le (PyFloat.fin 0) = true
            · rw [if_pos hle]
              exact hI
            · rw [if_neg hle]
              exact invariant_record s cid _ x t hI rfl rfl
  | createPay cid a g =>
      show ledger_center_invariant (create_payment s cid a g).2
      rw [create_payment_snd]
      exact hI
  | execPay pid yid cid dn g t =>
      show ledger_center_invariant (execute_payment s pid yid cid dn g t).2
      unfold execute_payment
      rcases h : alist_get s.centers_db cid with _ | c
      · simp only [h]
        exact hI
      · simp only [h]
        rcases g with _ | _ | _ | a
      
        · exact hI
        · exact hI
        · exact hI
        · exact invariant_record s cid _ a t hI rfl rfl

/-- The bookkeeping invariant survives any sequence of requests. -/
theorem invariant_run (ops : List Op) :
    ∀ s, ledger_center_invariant s → ledger_center_invariant (run s ops) := by
  induction ops with
  | nil => intro s h; exact h
  | cons op rest ih => intro s h; exact ih _ (invariant_step s op h)

/-- Every request handler preserves the direct-path minimum property. -/
theorem direct_min_step (s : AppState) (op : Op) (h : direct_min_prop s) :
    direct_min_prop (step s op) := by
  cases op with
  | createPay cid a g =>
      show direct_min_prop (create_payment s cid a g).2
      rw [create_payment_snd]
      exact h
  | direct cid a dn pm t =>
      show direct_min_prop (process_donation s cid a dn pm t).2
      unfold process_donation
      rcases a with _ | x
      · exact h
      · rcases hc : alist_get s.centers_db cid with _ | c
        · simp only [hc]
          exact h
        · simp only [hc]
          by_cases hlt : x.lt (PyFloat.fin 10) = true
          · rw [if_pos hlt]
            exact h
          · rw [if_neg hlt]
            by_cases hle : x.le (PyFloat.fin 0) = true
            · rw [if_pos hle]
              exact h
            · rw [if_neg hle]
              intro p hp hg
              rcases List.mem_append.mp hp with hmem | hmem
              · exact h p hmem hg
              · simp at hmem
                subst hmem
                simpa using hlt
  | execPay pid yid cid dn g t =>
      show direct_min_prop (execute_payment s pid yid cid dn g t).2
      unfold execute_payment
      rcases hc : alist_get s.centers_db cid with _ | c
      · simp only [hc]
        exact h
      · simp only [hc]
        rcases g with _ | _ | _ | a
        · exact h
        · exact h
        · exact h
        · intro p hp hg
          rcases List.mem_append.mp hp with hmem | hmem
          · exact h p hmem hg
          · simp at hmem
            subst hmem
            simp at hg

/-- The direct-path minimum property survives any sequence of requests. -/
theorem direct_min_run (ops : List Op) :
    ∀ s, direct_min_prop s → direct_min_prop (run s ops) := by
  induction ops with
  | nil => intro s h; exact h
  | cons op rest ih => intro s h; exact ih _ (direct_min_step s op h)

/-- A float that fails `< 10` also fails `≤ 0` (including the specials:
`inf` fails both, `nan` compares false both ways, `-inf` passes `< 10`). -/
theorem lt_ten_false_le_zero_false (x : PyFloat)
    (h : x.lt (PyFloat.fin 10) = false) : x.le (PyFloat.fin 0) = false := by
  cases x with
  | fin q =>
      have hq : ¬ q < 10 := by simpa [PyFloat.lt] using h
      have : ¬ q ≤ 0 := by
        push_neg at hq
        intro hle
        linarith
      simpa [PyFloat.le]
  | inf => rfl
  | ninf => simp [PyFloat.lt] at h
  | nan => rfl

/-! ## Exact shape of initialization on collision-free catalogs -/

/-- Folding one entry's city list over a database appends one fresh binding
per city, provided no generated id collides with an existing key or with
another city of the list. -/
theorem cities_foldl_eq (country : String) (t : Nat) :
    ∀ (cities : List String) (db : List (String × Center)),
      (db.map Prod.fst ++ cities.map (fun city => center_slug country city)).Nodup →
      cities.foldl
        (fun db city => dict_set db (center_slug country city) (mkCenter country city t)) db
        = db ++ cities.map (fun city => (center_slug country city, mkCenter country city t)) := by
  intro cities
  induction cities with
  | nil =>
      intro db h
      simp
  | cons city rest ih =>
      intro db h
      rw [List.foldl_cons]
      have hassoc : (db.map Prod.fst ++ (city :: rest).map (fun city => center_slug country city))
          = (db.map Prod.fst ++ [center_slug country city])
            ++ rest.map (fun city => center_slug country city) := by
        simp
      rw [hassoc] at h
      have hslug : center_slug country city ∉ db.map Prod.fst := by
        intro hmem
        have h0 : (db.map Prod.fst ++ [center_slug country city]).Nodup :=
          List.Nodup.sublist (List.sublist_append_left _ _) h
        have := (List.nodup_append.mp h0).2.2
        exact this hmem (List.mem_singleton.mpr rfl)
      rw [dict_set_fresh _ _ _ hslug]
      have h' : ((db ++ [(center_slug country city, mkCenter country city t)]).map Prod.fst
          ++ rest.map (fun city => center_slug country city)).Nodup := by
        rw [List.map_append]
        simpa using h
      rw [ih _ h']
      simp

/-- On a catalog whose generated ids are pairwise distinct, initialization
appends exactly one binding per catalog entry, in catalog order. -/
theorem init_foldl_eq (t : Nat) :
    ∀ (catalog : List (String × List String)) (db : List (String × Center)),
      (db.map Prod.fst ++ catalogSlugs catalog).Nodup →
      catalog.foldl
        (fun db entry => entry.2.foldl
          (fun db city => dict_set db (center_slug entry.1 city) (mkCenter entry.1 city t)) db)
        db
        = db ++ catalog.flatMap
            (fun entry => entry.2.map
              (fun city => (center_slug entry.1 city, mkCenter entry.1 city t))) := by
  intro catalog
  induction catalog with
  | nil =>
      intro db h
      simp
  | cons entry rest ih =>
      intro db h
      rw [List.foldl_cons]
      have hsplit : catalogSlugs (entry :: rest)
          = entry.2.map (fun city => center_slug entry.1 city) ++ catalogSlugs rest := by
        simp [catalogSlugs]
      rw [hsplit, ← List.append_assoc] at h
      have h1 : (db.map Prod.fst ++ entry.2.map (fun city => center_slug entry.1 city)).Nodup :=
        List.Nodup.sublist (List.sublist_append_left _ _) h
      rw [cities_foldl_eq entry.1 t entry.2 db h1]
      have h2 : ((db ++ entry.2.map
            (fun city => (center_slug entry.1 city, mkCenter entry.1 city t))).map Prod.fst
          ++ catalogSlugs rest).Nodup := by
        rw [List.map_append, List.map_map]
        have hcomp : (Prod.fst ∘ fun city =>
            ((center_slug entry.1 city, mkCenter entry.1 city t) : String × Center))
            = fun city => center_slug entry.1 city := rfl
        rw [hcomp]
        exact h
      rw [ih _ h2]
      simp

/-! ## Claims -/

/-- Claim C1: after any sequence of requests from a freshly initialized
state, every center's `funds_raised` equals the float sum of the amounts of
the ledger records bearing its id, and its `donors` count equals their
number. -/
theorem center_aggregates_match_ledger (catalog : List (String × List String))
    (t0 : Nat) (ops : List Op) (cid : String) (c : Center)
    (h : alist_get (run (initState catalog t0) ops).centers_db cid = some c) :
    c.id = cid ∧
    c.funds_raised = sumAmounts (centerDonations (run (initState catalog t0) ops) cid) ∧
    c.donors = (centerDonations (run (initState catalog t0) ops) cid).length :=
  invariant_run ops (initState catalog t0) (invariant_initState catalog t0) cid c h

/-- Witness for C1 at a concrete one-donation run. -/
theorem center_aggregates_match_ledger_witness :
    demoCenter.id = "x_ca" ∧
    demoCenter.funds_raised = sumAmounts (centerDonations demoState "x_ca") ∧
    demoCenter.donors = (centerDonations demoState "x_ca").length :=
  center_aggregates_match_ledger demoCatalog 0 demoOps "x_ca" demoCenter (by decide)

/-- Claim C2: a successful `execute_payment` stores one completed "paypal"
donation carrying the gateway-captured amount and the gateway ids, and
bumps exactly the referenced center by that amount and one donor. -/
theorem execute_payment_success_effects (s : AppState) (pid yid cid dn : String)
    (a : PyFloat) (t : Nat) (c : Center)
    (h : alist_get s.centers_db cid = some c) :
    (execute_payment s pid yid cid dn (GatewayExec.success a) t).1 = EpResult.ok s.nextId ∧
    (execute_payment s pid yid cid dn (GatewayExec.success a) t).2.donations_db =
      s.donations_db ++
        [(s.nextId,
          { id := s.nextId, center_id := cid, amount := a, donor_name := dn,
            payment_method := "paypal", gateway := some (pid, yid),
            status := DonationStatus.completed, created_at := t, currency := c.currency })] ∧
    alist_get (execute_payment s pid yid cid dn (GatewayExec.success a) t).2.centers_db cid =
      some { c with funds_raised := c.funds_raised.add a, donors := c.donors + 1,
                    last_donation := some t } ∧
    (∀ q, ¬ q = cid →
      alist_get (execute_payment s pid yid cid dn (GatewayExec.success a) t).2.centers_db q =
        alist_get s.centers_db q) ∧
    (execute_payment s pid yid cid dn (GatewayExec.success a) t).2.nextId = s.nextId + 1 := by
  refine ⟨?_, ?_, ?_, ?_, ?_⟩
  · unfold execute_payment
    simp [h]
  · unfold execute_payment
    simp only [h]
    rfl
  · unfold execute_payment
    simp only [h]
    have hm := alist_get_map_update s.centers_db cid (bump_center a t) cid
    rw [if_pos rfl, h] at hm
    show alist_get
        (s.centers_db.map fun p => if p.1 = cid then (p.1, bump_center a t p.2) else p) cid = _
    rw [hm]
    rfl
  · intro q hq
    unfold execute_payment
    simp only [h]
    have hm := alist_get_map_update s.centers_db cid (bump_center a t) q
    rw [if_neg hq] at hm
    show alist_get
        (s.centers_db.map fun p => if p.1 = cid then (p.1, bump_center a t p.2) else p) q = _
    rw [hm]
  · unfold execute_payment
    simp only [h]
    rfl

/-- Witness for C2: a gateway-confirmed capture of 75 at the demo state. -/
theorem execute_payment_success_effects_witness :
    (execute_payment (initState demoCatalog 0) "PAY-7" "PYR-1" "x_ca" "dana"
        (GatewayExec.success (PyFloat.fin 75)) 3).1 = EpResult.ok 0 :=
  (execute_payment_success_effects (initState demoCatalog 0) "PAY-7" "PYR-1" "x_ca" "dana"
    (PyFloat.fin 75) 3 (mkCenter "ca" "x" 0) (by decide)).1

/-- Counterexample to C3 as stated: with an unknown center and a
non-numeric amount, `process_donation` reports the bad amount, not the
unknown center, because the source parses the amount (app.py:116) before
looking the center up (app.py:124). -/
theorem unknown_center_bad_amount_cex :
    (process_donation (initState TARGET_CITIES 0) "atlantis" (pyFloatOfString "abc")
        "dana" "card" 0).1 = PdResult.invalidAmount ∧
    ¬ (process_donation (initState TARGET_CITIES 0) "atlantis" (pyFloatOfString "abc")
        "dana" "card" 0).1 = PdResult.centerNotFound := by
  decide

/-- Claim C3 as amended: `process_donation` validates amount parsing first
(`InvalidAmount`), then center existence (`CenterNotFound`), then the
minimum (`BelowMinimum`), first failure winning. -/
theorem process_donation_validation_order (s : AppState) (cid : String)
    (x : PyFloat) (dn pm : String) (t : Nat) :
    (process_donation s cid none dn pm t).1 = PdResult.invalidAmount ∧
    (alist_get s.centers_db cid = none →
      (process_donation s cid (some x) dn pm t).1 = PdResult.centerNotFound) ∧
    (∀ c, alist_get s.centers_db cid = some c → x.lt (PyFloat.fin 10) = true →
      (process_donation s cid (some x) dn pm t).1 = PdResult.belowMinimum) := by
  refine ⟨rfl, ?_, ?_⟩
  · intro h
    unfold process_donation
    simp only [h]
  · intro c h hlt
    unfold process_donation
    simp only [h]
    rw [if_pos hlt]

/-- Witness for C3 (amended): known bad center with a parsable amount. -/
theorem process_donation_validation_order_witness :
    (process_donation (initState TARGET_CITIES 0) "atlantis" (some (PyFloat.fin 50))
        "dana" "card" 0).1 = PdResult.centerNotFound :=
  (process_donation_validation_order (initState TARGET_CITIES 0) "atlantis"
    (PyFloat.fin 50) "dana" "card" 0).2.1 (by decide)

/-- Claim C4 (demonstrating the code bug): `float("inf")` and
`float("nan")` parse successfully, pass both the `< 10` and the `<= 0`
rejections (each comparison is false for them), and are recorded: the
request succeeds and the ledger ends up holding a donation with a
non-finite amount, while `float("-inf")` is rejected as below-minimum
rather than invalid. -/
theorem nonfinite_amount_recorded :
    pyFloatOfString "inf" = some PyFloat.inf ∧
    pyFloatOfString "nan" = some PyFloat.nan ∧
    pyFloatOfString "-inf" = some PyFloat.ninf ∧
    (process_donation (initState TARGET_CITIES 0) "vancouver_canada"
        (pyFloatOfString "inf") "dana" "card" 0).1 = PdResult.ok 0 ∧
    ((process_donation (initState TARGET_CITIES 0) "vancouver_canada"
        (pyFloatOfString "inf") "dana" "card" 0).2.donations_db.map fun p => p.2.amount)
      = [PyFloat.inf] ∧
    (process_donation (initState TARGET_CITIES 0) "vancouver_canada"
        (pyFloatOfString "nan") "dana" "card" 0).1 = PdResult.ok 0 ∧
    (process_donation (initState TARGET_CITIES 0) "vancouver_canada"
        (pyFloatOfString "-inf") "dana" "card" 0).1 = PdResult.belowMinimum := by
  decide

/-- Claim C5: the minimum is inclusive at 10 — a 9.99 donation is rejected
below-minimum leaving the state untouched, while 10.00 exactly succeeds
and appends the pending record. -/
theorem min_donation_boundary (s : AppState) (cid : String) (c : Center)
    (dn pm : String) (t : Nat) (h : alist_get s.centers_db cid = some c) :
    process_donation s cid (pyFloatOfString "9.99") dn pm t = (PdResult.belowMinimum, s) ∧
    (process_donation s cid (pyFloatOfString "10") dn pm t).1 = PdResult.ok s.nextId ∧
    (process_donation s cid (pyFloatOfString "10") dn pm t).2.donations_db =
      s.donations_db ++
        [(s.nextId,
          { id := s.nextId, center_id := cid, amount := PyFloat.fin 10, donor_name := dn,
            payment_method := pm, gateway := none, status := DonationStatus.pending,
            created_at := t, currency := c.currency })] := by
  have h99 : pyFloatOfString "9.99" = some (PyFloat.fin (mkRat 999 100)) := by decide
  have h10 : pyFloatOfString "10" = some (PyFloat.fin 10) := by decide
  rw [h99, h10]
  refine ⟨?_, ?_, ?_⟩
  · unfold process_donation
    simp only [h]
    rw [if_pos (by decide : (PyFloat.fin (mkRat 999 100)).lt (PyFloat.fin 10) = true)]
  · unfold process_donation
    simp only [h]
    rw [if_neg (by decide : ¬ (PyFloat.fin 10).lt (PyFloat.fin 10) = true),
      if_neg (by decide : ¬ (PyFloat.fin 10).le (PyFloat.fin 0) = true)]
  · unfold process_donation
    simp only [h]
    rw [if_neg (by decide : ¬ (PyFloat.fin 10).lt (PyFloat.fin 10) = true),
      if_neg (by decide : ¬ (PyFloat.fin 10).le (PyFloat.fin 0) = true)]
    rfl

/-- Witness for C5 at the demo state. -/
theorem min_donation_boundary_witness :
    process_donation (initState demoCatalog 0) "x_ca" (pyFloatOfString "9.99") "dana" "card" 3
      = (PdResult.belowMinimum, initState demoCatalog 0) :=
  (min_donation_boundary (initState demoCatalog 0) "x_ca" (mkCenter "ca" "x" 0)
    "dana" "card" 3 (by decide)).1

/-- Counterexample to C6 as stated: when the center id is also unknown, the
handler answers `CenterNotFound` (the center check at app.py:311 precedes
the gateway lookup), not `PaymentNotFound`. -/
theorem execute_unknown_center_cex :
    (execute_payment (initState TARGET_CITIES 0) "PAY-XYZ" "PYR" "atlantis" "dana"
        GatewayExec.notFound 0).1 = EpResult.centerNotFound ∧
    ¬ (execute_payment (initState TARGET_CITIES 0) "PAY-XYZ" "PYR" "atlantis" "dana"
        GatewayExec.notFound 0).1 = EpResult.paymentNotFound := by
  decide

/-- Claim C6 as amended: when the center resolves and the gateway does not
recognize the payment id, `execute_payment` answers `PaymentNotFound` and
returns the state unchanged — no donation stored, no center mutated. -/
theorem execute_payment_unknown_payment (s : AppState) (pid yid cid dn : String)
    (t : Nat) (c : Center) (h : alist_get s.centers_db cid = some c) :
    execute_payment s pid yid cid dn GatewayExec.notFound t = (EpResult.paymentNotFound, s) := by
  unfold execute_payment
  simp only [h]

/-- Witness for C6 (amended) at the freshly initialized default state. -/
theorem execute_payment_unknown_payment_witness :
    execute_payment (initState TARGET_CITIES 0) "PAY-XYZ" "PYR" "vancouver_canada" "dana"
        GatewayExec.notFound 0
      = (EpResult.paymentNotFound, initState TARGET_CITIES 0) :=
  execute_payment_unknown_payment (initState TARGET_CITIES 0) "PAY-XYZ" "PYR"
    "vancouver_canada" "dana" 0 (mkCenter "Canada" "Vancouver" 0) (by decide)

/-- Claim C7: `create_payment` never touches the local records — for every
input and every gateway outcome the registry and the ledger are exactly the
state they were. -/
theorem create_payment_no_local_record (s : AppState) (cid : String)
    (a : Option PyFloat) (g : GatewayCreate) :
    (create_payment s cid a g).2.centers_db = s.centers_db ∧
    (create_payment s cid a g).2.donations_db = s.donations_db := by
  rw [create_payment_snd]
  exact ⟨rfl, rfl⟩

/-- Counterexample to C8 as stated: a gateway-path execution whose captured
amount is 5 succeeds and stores a donation of amount 5, below the claimed
minimum of 10 — `execute_payment` applies no minimum to the gateway
amount. -/
theorem gateway_amount_below_minimum_cex :
    (execute_payment (initState TARGET_CITIES 0) "PAY-1" "PYR" "vancouver_canada" "dana"
        (GatewayExec.success (PyFloat.fin 5)) 0).1 = EpResult.ok 0 ∧
    ((execute_payment (initState TARGET_CITIES 0) "PAY-1" "PYR" "vancouver_canada" "dana"
        (GatewayExec.success (PyFloat.fin 5)) 0).2.donations_db.map fun p => p.2.amount)
      = [PyFloat.fin 5] ∧
    PyFloat.lt (PyFloat.fin 5) (PyFloat.fin 10) = true := by
  decide

/-- Claim C8 as amended: every direct-path donation ever stored fails the
`< 10` rejection (so every comparable such amount is at least 10, hence
positive; the incomparable NaN also slips through), while gateway-path
donations record the gateway-captured amount with no local minimum. -/
theorem direct_path_minimum (catalog : List (String × List String)) (t0 : Nat)
    (ops : List Op) (p : Nat × Donation)
    (hp : p ∈ (run (initState catalog t0) ops).donations_db)
    (hg : p.2.gateway = none) :
    p.2.amount.lt (PyFloat.fin 10) = false :=
  direct_min_run ops (initState catalog t0)
    (by intro p hp hg; exact absurd hp (by simp [initState])) p hp hg

/-- Witness for C8 (amended) at the demo run. -/
theorem direct_path_minimum_witness :
    (({ id := 0, center_id := "x_ca", amount := PyFloat.fin 50, donor_name := "dana",
        payment_method := "card", gateway := none, status := DonationStatus.pending,
        created_at := 7, currency := "USD" } : Donation)).amount.lt (PyFloat.fin 10) = false :=
  direct_path_minimum demoCatalog 0 demoOps
    (0, { id := 0, center_id := "x_ca", amount := PyFloat.fin 50, donor_name := "dana",
          payment_method := "card", gateway := none, status := DonationStatus.pending,
          created_at := 7, currency := "USD" })
    (by decide) (by decide)

/-- Counterexample to C9 as stated: a catalog whose two entries generate
the same id initializes to a single center — the later entry silently
overwrites the earlier one instead of any `DuplicateCenterID` failure
(`init_centers_db` has no failure outcome at all). -/
theorem init_duplicate_overwrites_cex :
    (init_centers_db [("usa", ["A", "A"])] 0).length = 1 ∧
    ¬ (init_centers_db [("usa", ["A", "A"])] 0).length = 2 := by
  decide

/-- Claim C9 as amended: on any catalog whose generated ids are pairwise
distinct (the default catalog is one), initialization builds exactly one
center per entry, in order, keyed and stamped with the id
`lowercase city with spaces replaced by underscores ++ "_" ++ lowercase
country`; on a collision the later entry silently overwrites. -/
theorem init_builds_one_center_per_entry (catalog : List (String × List String))
    (t : Nat) (h : (catalogSlugs catalog).Nodup) :
    init_centers_db catalog t
      = catalog.flatMap (fun entry => entry.2.map
          (fun city => (center_slug entry.1 city, mkCenter entry.1 city t))) := by
  unfold init_centers_db
  have h0 : (([] : List (String × Center)).map Prod.fst ++ catalogSlugs catalog).Nodup := by
    simpa using h
  have he := init_foldl_eq t catalog [] h0
  simpa using he

/-- Witness for C9 (amended) on the default catalog. -/
theorem init_builds_one_center_per_entry_witness :
    init_centers_db TARGET_CITIES 0
      = TARGET_CITIES.flatMap (fun entry => entry.2.map
          (fun city => (center_slug entry.1 city, mkCenter entry.1 city 0))) :=
  init_builds_one_center_per_entry TARGET_CITIES 0 (by decide)

/-- Claim C10: the `amount <= 0` rejection of app.py:136 is dead code —
no input ever makes `process_donation` answer with the "must be positive"
error, because everything it would catch (and nothing else) is already
caught by the `amount < 10` rejection before it. -/
theorem positive_check_unreachable (s : AppState) (cid : String) (a : Option PyFloat)
    (dn pm : String) (t : Nat) :
    ¬ (process_donation s cid a dn pm t).1 = PdResult.amountNotPositive := by
  unfold process_donation
  rcases a with _ | x
  · simp
  · rcases h : alist_get s.centers_db cid with _ | c
    · simp only [h]
      simp
    · simp only [h]
      by_cases hlt : x.lt (PyFloat.fin 10) = true
      · rw [if_pos hlt]
        simp
      · rw [if_neg hlt]
        have hle : x.le (PyFloat.fin 0) = false :=
          lt_ten_false_le_zero_false x (Bool.eq_false_iff.mpr hlt)
        rw [if_neg (by simp [hle] : ¬ x.le (PyFloat.fin 0) = true)]
        simp

/-- Witness for C10 at a concrete input. -/
theorem positive_check_unreachable_witness :
    ¬ (process_donation (initState TARGET_CITIES 0) "vancouver_canada"
        (some (PyFloat.fin 50)) "dana" "card" 0).1 = PdResult.amountNotPositive :=
  positive_check_unreachable (initState TARGET_CITIES 0) "vancouver_canada"
    (some (PyFloat.fin 50)) "dana" "card" 0
